import Mathlib

/-!
Verification development for the lametrobusping dashboard frontend.

Shallow embedding of the synchronized multi-chart view:
* the orchestrator page (time-range selection, poll parameter derivation,
  poll result application, zoom/hover state) from the page component;
* the chart component (`LatencyChart.svelte`): `updateChart`, the
  vertical-line plugin, the `onHover` option handler and the
  mount/destroy lifecycle.

Timestamps and pixel coordinates are modelled as `Int` (the data are unix
seconds, integers); `null`-able JS values are `Option`; JS `Map` keyed by
string becomes an association list with overwrite-on-set.
-/

namespace BusPing

/-- One (x, y) sample: `{ x: timestamp(seconds), y: number }`. -/
structure Point where
  x : Int
  y : Int
  deriving Repr, DecidableEq

/-- A dataset handed to `LatencyChart` (interface `Dataset` in the source). -/
structure Dataset where
  label : String
  data : List Point
  color : String
  backgroundColor : Option String := none
  fill : Option Bool := none
  deriving Repr, DecidableEq

/-- A dataset as stored inside the live chart instance after `updateChart`
rebuilt it (`chart.data.datasets` entries). `hidden = none` models the JS
`undefined`, which chart.js renders as visible. -/
structure RenderedDataset where
  label : String
  data : List Point
  borderColor : String
  backgroundColor : Option String := none
  fill : Option Bool := none
  hidden : Option Bool := none
  deriving Repr, DecidableEq

/-- chart.js `isDatasetVisible`: a dataset is visible unless its hidden
flag is `true` (`undefined` and `false` both render visible). -/
def isDatasetVisible (ds : RenderedDataset) : Bool :=
  match ds.hidden with
  | some true => false
  | _ => true

/-- The mutable pieces of the chart.js instance that `updateChart` touches:
the x-scale bounds, the dataset array, the vertical-line plugin's
`xValue`, the tick step, and the legend / x-axis display flags. -/
structure ChartState where
  xmin : Option Int
  xmax : Option Int
  datasets : List RenderedDataset
  verticalLineX : Option Int
  tickStepSize : Int
  legendDisplay : Bool
  xAxisDisplay : Bool
  deriving Repr, DecidableEq

/-! ### Orchestrator: query-parameter derivation (`fetchData`, params part) -/

/-- The `step` query parameter computed by `fetchData` from the selected
time range (`none` = the unbounded "Max" selection):
```
let step = 1;
if (selectedTimeRange > 4 * 3600)       step = 30;
else if (selectedTimeRange === 4*3600)  step = 6;
else if (selectedTimeRange === 3600)    step = 2;
-- and in the `null` branch params.set('step', '30')
```
-/
def stepFor (selectedTimeRange : Option Int) : Int :=
  match selectedTimeRange with
  | none => 30
  | some r =>
      if r > 4 * 3600 then 30
      else if r = 4 * 3600 then 6
      else if r = 3600 then 2
      else 1

/-- Whether `fetchData` sets the `since` query parameter: it does exactly
in the `selectedTimeRange !== null` branch. -/
def sinceIncluded (selectedTimeRange : Option Int) : Bool :=
  selectedTimeRange.isSome

/-! ### Orchestrator: poll-result application (`fetchData`, response part) -/

/-- `Percentiles` record from the page component. -/
structure Percentiles where
  p50 : Int
  p90 : Int
  p99 : Int
  deriving Repr, DecidableEq

/-- `SystemStats` record from the page component. -/
structure SystemStats where
  timestamp : Int
  interval_stats : Percentiles
  latency_stats : Percentiles
  sample_count : Int
  deriving Repr, DecidableEq

/-- `Record` from the page component (a bus history sample). -/
structure BusRecord where
  interval : Int
  end_of_interval : Int
  latency : Int
  rank : Int
  has_trip : Bool
  deriving Repr, DecidableEq

/-- `ScoredBus` record from the page component. -/
structure ScoredBus where
  bus_id : String
  score : Int
  history : List BusRecord
  deriving Repr, DecidableEq

/-- Outcome of one `fetch` as observed by `fetchData`: the promise
resolved with an ok response carrying a parsed body, resolved with a
non-success status (`res.ok` false), or rejected (network failure) with
its stringified error. -/
inductive FetchOutcome (α : Type) where
  | ok (body : α)
  | httpError
  | rejected (msg : String)
  deriving Repr, DecidableEq

/-- The page-level reactive state `fetchData` writes to. -/
structure DashState where
  stats : List SystemStats
  anomalies : List ScoredBus
  error : Option String
  deriving Repr, DecidableEq

/-- One `fetchData` call applied to the two settled fetch outcomes:
`await Promise.all([...])` rejects as soon as either fetch rejects, so a
rejection jumps to `catch (e) { error = String(e) }` before either
assignment runs; otherwise `if (statsRes.ok) stats = ...;` and
`if (anomaliesRes.ok) anomalies = ...;` apply independently and no error
is recorded. -/
def fetchDataApply (s : DashState) (statsRes : FetchOutcome (List SystemStats))
    (anomaliesRes : FetchOutcome (List ScoredBus)) : DashState :=
  match statsRes, anomaliesRes with
  | .rejected e, _ => { s with error := some e }
  | _, .rejected e => { s with error := some e }
  | sr, ar =>
      let s1 := match sr with
        | .ok body => { s with stats := body }
        | _ => s
      match ar with
      | .ok body => { s1 with anomalies := body }
      | _ => s1

/-! ### Orchestrator: zoom / hover / range state transitions -/

/-- The orchestrator's `$state` cells shared by all charts. -/
structure OrchestratorState where
  selectedTimeRange : Option Int
  minTime : Option Int
  maxTime : Option Int
  hoveredTime : Option Int
  deriving Repr, DecidableEq

/-- Pressing a time-range button: `onclick={() => selectedTimeRange = range.val}`.
The `$effect` that reads `selectedTimeRange` re-runs on this change and
calls `fetchData()`; the returned flag records that an immediate poll was
issued. No other state cell is written. -/
def selectRange (s : OrchestratorState) (r : Option Int) : OrchestratorState × Bool :=
  ({ s with selectedTimeRange := r }, true)

/-- `handleZoom(min, max)`: stores the zoom bounds. -/
def handleZoom (s : OrchestratorState) (mn mx : Int) : OrchestratorState :=
  { s with minTime := some mn, maxTime := some mx }

/-- `resetZoom()`: clears both zoom bounds. -/
def resetZoom (s : OrchestratorState) : OrchestratorState :=
  { s with minTime := none, maxTime := none }

/-- `handleHover(time)`: stores the hovered timestamp. -/
def handleHover (s : OrchestratorState) (t : Option Int) : OrchestratorState :=
  { s with hoveredTime := t }

/-! ### LatencyChart: `updateChart` -/

/-- The x values of every point of every dataset, in traversal order of
the two nested `forEach` loops. -/
def allXs (dss : List Dataset) : List Int :=
  (dss.map (fun ds => ds.data.map (fun p => p.x))).flatten

/-- One step of the min/max scan. `none` models the initial
`minX = Infinity; maxX = -Infinity` pair before any point was seen: a
finite x always satisfies `x < Infinity` and `x > -Infinity`, so the
first point replaces both. -/
def scanStep (acc : Option (Int × Int)) (x : Int) : Option (Int × Int) :=
  match acc with
  | none => some (x, x)
  | some (mn, mx) => some (if x < mn then x else mn, if x > mx then x else mx)

/-- The `datasets.forEach(ds => ds.data.forEach(p => ...))` scan: returns
`some (minX, maxX)` when at least one point exists (`hasData`), `none`
otherwise. -/
def scanPoints (dss : List Dataset) : Option (Int × Int) :=
  (allXs dss).foldl scanStep none

/-- `Math.ceil(a / b)` on integer arguments, `b > 0`:
`⌈a/b⌉ = -⌊-a/b⌋`. -/
def ceilDiv (a b : Int) : Int :=
  -((-a).fdiv b)

/-- Sets a key in a JS `Map<string, boolean>` modelled as an association
list: overwrite the existing entry, else append. -/
def mapSet (m : List (String × Bool)) (k : String) (v : Bool) : List (String × Bool) :=
  if m.any (fun p => p.1 == k) then
    m.map (fun p => if p.1 == k then (k, v) else p)
  else m ++ [(k, v)]

/-- The `hiddenStatus` map built by `updateChart` from the chart's current
datasets: `if (ds.label) hiddenStatus.set(ds.label, !chart.isDatasetVisible(index))`.
The truthiness guard `if (ds.label)` skips exactly the empty string (the
only falsy string value), so a dataset labelled `""` is never recorded. -/
def hiddenStatusOf (dss : List RenderedDataset) : List (String × Bool) :=
  dss.foldl (fun m ds =>
    if ds.label = "" then m else mapSet m ds.label (!isDatasetVisible ds)) []

/-- The per-dataset mapping `updateChart` applies when rebuilding
`chart.data.datasets`:
`hidden: hiddenStatus.has(ds.label) ? hiddenStatus.get(ds.label) : undefined`
becomes a plain association-list lookup. -/
def renderDataset (hiddenMap : List (String × Bool)) (ds : Dataset) : RenderedDataset :=
  { label := ds.label
    data := ds.data
    borderColor := ds.color
    backgroundColor := ds.backgroundColor
    fill := ds.fill
    hidden := hiddenMap.lookup ds.label }

/-- `updateChart()` from `LatencyChart.svelte` applied to the current
chart instance (`none` when the instance was never created: the function
returns immediately), the incoming props `datasets`, `min`, `max`,
`hoveredTime`, `showLegend`. Mirrors the source step by step: min/max
scan; when data exists, hour-align and set the x-scale bounds (external
`min`/`max` override only when both are non-null) and the tick step;
rebuild `chart.data.datasets` preserving hidden status by label; copy
`hoveredTime` into the vertical-line plugin and `showLegend` into the
legend and x-axis display flags. -/
def updateChart (chart : Option ChartState) (datasets : List Dataset)
    (min max : Option Int) (hoveredTime : Option Int) (showLegend : Bool) :
    Option ChartState :=
  match chart with
  | none => none
  | some c =>
      let stepSize : Int := 3600
      let c1 := match scanPoints datasets with
        | none => c
        | some (minX, maxX) =>
            let alignedMin := minX.fdiv stepSize * stepSize
            let alignedMax := ceilDiv maxX stepSize * stepSize
            let c' := match min, max with
              | some a, some b => { c with xmin := some a, xmax := some b }
              | _, _ => { c with xmin := some alignedMin, xmax := some alignedMax }
            { c' with tickStepSize := stepSize }
      let newDatasets := datasets.map (renderDataset (hiddenStatusOf c1.datasets))
      some { c1 with
              datasets := newDatasets
              verticalLineX := hoveredTime
              legendDisplay := showLegend
              xAxisDisplay := showLegend }

/-! ### LatencyChart: vertical-line plugin and hover handler -/

/-- The chart's plot area rectangle (`chart.chartArea`), in pixels. -/
structure ChartArea where
  left : Int
  right : Int
  top : Int
  bottom : Int
  deriving Repr, DecidableEq

/-- A pointer position relative to the canvas (`getRelativePosition`). -/
structure Pos where
  x : Int
  y : Int
  deriving Repr, DecidableEq

/-- The `verticalLinePlugin.afterDraw` hook: given the plugin's `xValue`,
the x-scale's value→pixel map and the chart area, returns the pixel x at
which the dashed line is stroked, or `none` when nothing is drawn
(`xValue` null, or the pixel falls outside the chart area horizontally). -/
def verticalLineDraw (xValue : Option Int) (getPixelForValue : Int → Int)
    (area : ChartArea) : Option Int :=
  match xValue with
  | none => none
  | some v =>
      let x := getPixelForValue v
      if x < area.left ∨ x > area.right then none else some x

/-- The inside-plot-area test of the chart `onHover` option:
`x >= left && x <= right && y >= top && y <= bottom`. -/
def insideArea (area : ChartArea) (pos : Pos) : Bool :=
  area.left ≤ pos.x ∧ pos.x ≤ area.right ∧ area.top ≤ pos.y ∧ pos.y ≤ area.bottom

/-- The chart `onHover` option: inside the plot area it reports
`chart.scales.x.getValueForPixel(pos.x)` through the hover callback,
otherwise it reports `null`. The returned value is what `onHover` is
invoked with. -/
def onHoverEmit (area : ChartArea) (getValueForPixel : Int → Int) (pos : Pos) :
    Option Int :=
  if insideArea area pos then some (getValueForPixel pos.x) else none

/-! ### LatencyChart: instance lifecycle -/

/-- Create/destroy accounting for the chart.js instance owned by one
`LatencyChart` component. -/
structure ChartLifecycle where
  created : Nat
  destroyed : Nat
  instanceAlive : Bool
  deriving Repr, DecidableEq

/-- `onMount`: when `canvas.getContext('2d')` is available, exactly one
`new Chart(...)` runs; when it is not, the handler logs and returns
before any instance is created. -/
def mountChart (ctxAvailable : Bool) : ChartLifecycle :=
  if ctxAvailable then ⟨1, 0, true⟩ else ⟨0, 0, false⟩

/-- `onDestroy`: `if (chart) chart.destroy()` — destroys the instance
exactly when one is alive, and is a no-op (never throwing) otherwise. -/
def destroyChart (l : ChartLifecycle) : ChartLifecycle :=
  if l.instanceAlive then
    { l with destroyed := l.destroyed + 1, instanceAlive := false }
  else l

end BusPing

open BusPing in
/-- Sample `SystemStats` value used by concrete counterexamples below. -/
def sampleStats : BusPing.SystemStats :=
  ⟨100, ⟨1, 2, 3⟩, ⟨4, 5, 6⟩, 7⟩

open BusPing in
/-- Sample `ScoredBus` value used by concrete counterexamples below. -/
def sampleBus : BusPing.ScoredBus :=
  ⟨"bus-1", 9, [⟨60, 120, 5, 91, true⟩]⟩

open BusPing in
/-- A sample chart-instance state used by concrete witnesses below. -/
def chart0 : BusPing.ChartState :=
  ⟨none, none, [], none, 3600, true, true⟩

open BusPing in
/-- A sample dataset (x values −10 and 3601) used by concrete witnesses. -/
def dsA : BusPing.Dataset :=
  { label := "A", data := [⟨3601, 5⟩, ⟨-10, 2⟩], color := "#fff" }

open BusPing in
/-- A sample dataset with no points, used by concrete witnesses. -/
def dsEmpty : BusPing.Dataset :=
  { label := "E", data := [], color := "#000" }

open BusPing in
/-- A chart-instance dataset the user hid (label "P99"). -/
def hiddenOld : BusPing.RenderedDataset :=
  { label := "P99", data := [], borderColor := "#f00", hidden := some true }

open BusPing in
/-- A chart-instance dataset left visible (label "P50"). -/
def visibleOld : BusPing.RenderedDataset :=
  { label := "P50", data := [], borderColor := "#0f0" }

open BusPing in
/-- A chart-instance state holding one hidden and one visible dataset. -/
def chartH : BusPing.ChartState :=
  ⟨none, none, [hiddenOld, visibleOld], none, 3600, true, true⟩

open BusPing in
/-- An incoming dataset whose label matches the hidden one. -/
def dsP99 : BusPing.Dataset :=
  { label := "P99", data := [⟨10, 1⟩], color := "#f00" }

open BusPing in
/-- A chart-instance dataset the user hid whose label is the empty
string — the label the source's truthiness guard skips. -/
def hiddenEmptyLabel : BusPing.RenderedDataset :=
  { label := "", data := [], borderColor := "#f00", hidden := some true }

open BusPing in
/-- A chart-instance state holding only the hidden empty-labelled
dataset. -/
def chartE : BusPing.ChartState :=
  ⟨none, none, [hiddenEmptyLabel], none, 3600, true, true⟩

open BusPing in
/-- An incoming dataset whose label is likewise the empty string. -/
def dsEmptyLabel : BusPing.Dataset :=
  { label := "", data := [⟨10, 1⟩], color := "#f00" }

open BusPing

/-- C1: the claim states that the 12h and 24h selections give step 1; the
code's first branch (`> 4*3600`) maps 12h (43200 s) to step 30. -/
theorem c1_counterexample :
    ¬ (BusPing.stepFor (some (12 * 3600)) = 1 ∧
       BusPing.stepFor (some (24 * 3600)) = 1) := by
  decide

/-- C1 (amended): unbounded or any range greater than 4 hours — hence also
the 12h and 24h selections — gives step 30; exactly 4h gives 6; exactly 1h
gives 2; the remaining selection (30m) gives 1; `since` is included exactly
when the range is bounded. -/
theorem c1_amended :
    BusPing.stepFor none = 30 ∧
    (∀ r : Int, r > 4 * 3600 → BusPing.stepFor (some r) = 30) ∧
    BusPing.stepFor (some (12 * 3600)) = 30 ∧
    BusPing.stepFor (some (24 * 3600)) = 30 ∧
    BusPing.stepFor (some (4 * 3600)) = 6 ∧
    BusPing.stepFor (some 3600) = 2 ∧
    BusPing.stepFor (some (30 * 60)) = 1 ∧
    BusPing.sinceIncluded none = false ∧
    (∀ r : Int, BusPing.sinceIncluded (some r) = true) := by
  refine ⟨rfl, ?_, by decide, by decide, by decide, by decide, by decide, rfl, fun r => rfl⟩
  intro r hr
  simp only [BusPing.stepFor, if_pos hr]

/-- C1 amended, instantiated: a concrete range above 4 hours gets step 30. -/
theorem c1_amended_witness : BusPing.stepFor (some 20000) = 30 :=
  c1_amended.2.1 20000 (by decide)

/-- C2: counterexample — at a concrete poll outcome where the anomalies
response has a non-success status while stats succeeds, `fetchData` sets
no error string (the claim requires a user-visible error to be set); and
when the anomalies fetch is rejected, `Promise.all` rejects, so the
successfully fetched stats are not applied either (the claim requires the
displayed stats to be updated). -/
theorem c2_counterexample :
    (fetchDataApply ⟨[], [sampleBus], none⟩ (.ok [sampleStats]) .httpError).error = none ∧
    (fetchDataApply ⟨[], [sampleBus], none⟩ (.ok [sampleStats])
        (.rejected "TypeError")).stats = [] := by
  exact ⟨rfl, rfl⟩

/-- C2 (amended): the two fetches are handled independently only when both
promises settle. If the anomalies response has a non-success status while
stats succeeds, the displayed stats are updated and the previously
displayed anomalies remain unchanged, but no error string is set; if the
anomalies fetch rejects, neither dataset is updated and the error string
is set to the stringified rejection. -/
theorem c2_amended (s : DashState) (stats' : List SystemStats) (e : String) :
    ((fetchDataApply s (.ok stats') .httpError).stats = stats' ∧
     (fetchDataApply s (.ok stats') .httpError).anomalies = s.anomalies ∧
     (fetchDataApply s (.ok stats') .httpError).error = s.error) ∧
    ((fetchDataApply s (.ok stats') (.rejected e)).stats = s.stats ∧
     (fetchDataApply s (.ok stats') (.rejected e)).anomalies = s.anomalies ∧
     (fetchDataApply s (.ok stats') (.rejected e)).error = some e) :=
  ⟨⟨rfl, rfl, rfl⟩, ⟨rfl, rfl, rfl⟩⟩

/-- C3: counterexample — from a concrete state with an active zoom,
selecting a new time range leaves `minTime` set (the claim requires both
zoom bounds to be reset to null). -/
theorem c3_counterexample :
    (selectRange ⟨some 1800, some 5, some 9, none⟩ (some 3600)).1.minTime ≠ none := by
  decide

/-- C3 (amended): changing the selected time range stores the new range
and triggers an immediate poll (the `$effect` watching `selectedTimeRange`
calls `fetchData`), but leaves both TimeWindow zoom bounds unchanged —
only the Reset Zoom button (`resetZoom`) clears them. -/
theorem c3_amended (s : OrchestratorState) (r : Option Int) :
    (selectRange s r).1.selectedTimeRange = r ∧
    (selectRange s r).1.minTime = s.minTime ∧
    (selectRange s r).1.maxTime = s.maxTime ∧
    (selectRange s r).1.hoveredTime = s.hoveredTime ∧
    (selectRange s r).2 = true ∧
    (resetZoom s).minTime = none ∧ (resetZoom s).maxTime = none :=
  ⟨rfl, rfl, rfl, rfl, rfl, rfl, rfl⟩

/-! ### Helper lemmas: the min/max scan computes the list minimum/maximum -/

/-- `List.min?` of a nonempty list is the fold of `min` over it. -/
theorem min?_cons_eq_foldl (x : Int) (xs : List Int) :
    (x :: xs).min? = some (xs.foldl min x) := by
  induction xs generalizing x with
  | nil => rfl
  | cons y ys ih => simp [List.min?_cons, ih, Option.elim, List.foldl_assoc]

/-- `List.max?` of a nonempty list is the fold of `max` over it. -/
theorem max?_cons_eq_foldl (x : Int) (xs : List Int) :
    (x :: xs).max? = some (xs.foldl max x) := by
  induction xs generalizing x with
  | nil => rfl
  | cons y ys ih => simp [List.max?_cons, ih, Option.elim, List.foldl_assoc]

/-- One scan step on an already-seen accumulator takes pointwise min/max. -/
theorem scanStep_some (mn mx x : Int) :
    scanStep (some (mn, mx)) x = some (min mn x, max mx x) := by
  have h1 : (if x < mn then x else mn) = min mn x := by
    rcases lt_or_le x mn with h | h
    · rw [if_pos h, min_eq_right h.le]
    · rw [if_neg (not_lt.mpr h), min_eq_left h]
  have h2 : (if x > mx then x else mx) = max mx x := by
    rcases lt_or_le mx x with h | h
    · rw [if_pos h, max_eq_right h.le]
    · rw [if_neg (not_lt.mpr h), max_eq_left h]
  simp only [scanStep, h1, h2]

/-- Folding the scan from a seen accumulator folds min and max. -/
theorem foldl_scanStep_some (xs : List Int) (mn mx : Int) :
    xs.foldl scanStep (some (mn, mx)) = some (xs.foldl min mn, xs.foldl max mx) := by
  induction xs generalizing mn mx with
  | nil => rfl
  | cons x xs ih =>
      rw [List.foldl_cons, scanStep_some, ih, List.foldl_cons, List.foldl_cons]

/-- The `forEach` scan of `updateChart` returns exactly the minimum and
maximum x value over all datasets whenever at least one point exists. -/
theorem scanPoints_minmax (dss : List Dataset) (mn mx : Int)
    (hmn : (allXs dss).min? = some mn) (hmx : (allXs dss).max? = some mx) :
    scanPoints dss = some (mn, mx) := by
  unfold scanPoints
  cases hxs : allXs dss with
  | nil => rw [hxs] at hmn; cases hmn
  | cons x xs =>
      rw [hxs] at hmn hmx
      rw [min?_cons_eq_foldl] at hmn
      rw [max?_cons_eq_foldl] at hmx
      rw [List.foldl_cons]
      show xs.foldl scanStep (some (x, x)) = some (mn, mx)
      rw [foldl_scanStep_some, Option.some.inj hmn, Option.some.inj hmx]

/-- C4: for every non-empty set of series (at least one data point across
all datasets), with no explicit zoom (auto-fit), the x-axis range set by
`updateChart` equals `[⌊min(x)/3600⌋·3600, ⌈max(x)/3600⌉·3600]` — the data
bounding range aligned outward to hour boundaries. -/
theorem c4_autofit_hour_aligned (c : ChartState) (dss : List Dataset)
    (hov : Option Int) (leg : Bool) (mn mx : Int)
    (hmn : (allXs dss).min? = some mn) (hmx : (allXs dss).max? = some mx) :
    (updateChart (some c) dss none none hov leg).map (fun st => (st.xmin, st.xmax)) =
      some (some (mn.fdiv 3600 * 3600), some (ceilDiv mx 3600 * 3600)) := by
  have hscan := scanPoints_minmax dss mn mx hmn hmx
  simp only [updateChart, hscan, Option.map_some']

/-- C4 instantiated: dataset with x values 3601 and −10 auto-fits to
[−3600, 7200]. -/
theorem c4_autofit_witness :
    (updateChart (some chart0) [dsA] none none none true).map
        (fun st => (st.xmin, st.xmax)) = some (some (-3600), some 7200) := by
  have h := c4_autofit_hour_aligned chart0 [dsA] none true (-10) 3601 (by decide) (by decide)
  rw [h]; decide

/-- C5: on a render with data, non-null zoom bounds (both of them)
override the computed hour-aligned auto range as the x-axis bounds;
in every other case (either bound null) the hour-aligned auto range is
used. -/
theorem c5_zoom_overrides (c : ChartState) (dss : List Dataset)
    (wmn wmx hov : Option Int) (leg : Bool) (mn mx : Int)
    (hscan : scanPoints dss = some (mn, mx)) :
    (updateChart (some c) dss wmn wmx hov leg).map (fun st => (st.xmin, st.xmax)) =
      some (match wmn, wmx with
            | some a, some b => (some a, some b)
            | _, _ => (some (mn.fdiv 3600 * 3600), some (ceilDiv mx 3600 * 3600))) := by
  rcases wmn with _ | a <;> rcases wmx with _ | b <;>
    simp only [updateChart, hscan, Option.map_some']

/-- C5 instantiated: explicit zoom bounds 42 and 99 override the
auto-fit range of `dsA`. -/
theorem c5_zoom_overrides_witness :
    (updateChart (some chart0) [dsA] (some 42) (some 99) none true).map
        (fun st => (st.xmin, st.xmax)) = some (some 42, some 99) :=
  c5_zoom_overrides chart0 [dsA] (some 42) (some 99) none true (-10) 3601 (by decide)

/-- C10: when no dataset holds any point, `updateChart` leaves the x-axis
bounds unchanged, whatever the zoom window (both bounds set, exactly one
set, or none). -/
theorem c10_empty_data_keeps_bounds (c : ChartState) (dss : List Dataset)
    (wmn wmx hov : Option Int) (leg : Bool) (h : allXs dss = []) :
    (updateChart (some c) dss wmn wmx hov leg).map (fun st => (st.xmin, st.xmax)) =
      some (c.xmin, c.xmax) := by
  have hscan : scanPoints dss = none := by unfold scanPoints; rw [h]; rfl
  simp only [updateChart, hscan, Option.map_some']

/-- C10 instantiated: a chart whose only dataset is empty ignores the
explicit zoom window (0, 10) and keeps its previous (unset) bounds. -/
theorem c10_empty_data_keeps_bounds_witness :
    (updateChart (some chart0) [dsEmpty] (some 0) (some 10) none true).map
        (fun st => (st.xmin, st.xmax)) = some (none, none) :=
  c10_empty_data_keeps_bounds chart0 [dsEmpty] (some 0) (some 10) none true (by decide)

/-- C7: counterexample — a chart whose datasets hold no points does not
adopt the shared zoom bounds (0, 10) on render, so two charts sharing one
TimeWindow can display different bounds when one of them is data-empty. -/
theorem c7_counterexample :
    (updateChart (some chart0) [dsEmpty] (some 0) (some 10) none true).map
        (fun st => (st.xmin, st.xmax)) ≠ some (some 0, some 10) := by
  decide

/-- C7 (amended): after `onZoom(min,max)` reaches the orchestrator
(`handleZoom`), every chart that holds at least one data point renders
with x-axis bounds exactly `(min, max)` — independent of its own prior
state and datasets, so all non-empty charts sharing the TimeWindow
display identical bounds. -/
theorem c7_zoom_fanout (s : OrchestratorState) (mn mx : Int) (c : ChartState)
    (dss : List Dataset) (hov : Option Int) (leg : Bool) (p q : Int)
    (hscan : scanPoints dss = some (p, q)) :
    (handleZoom s mn mx).minTime = some mn ∧
    (handleZoom s mn mx).maxTime = some mx ∧
    (updateChart (some c) dss (handleZoom s mn mx).minTime
        (handleZoom s mn mx).maxTime hov leg).map (fun st => (st.xmin, st.xmax)) =
      some (some mn, some mx) := by
  refine ⟨rfl, rfl, ?_⟩
  simp only [handleZoom, updateChart, hscan, Option.map_some']

/-- C7 amended, instantiated: zooming to (5, 9) makes a chart holding
`dsA` render bounds (5, 9). -/
theorem c7_zoom_fanout_witness :
    (handleZoom ⟨some 1800, none, none, none⟩ 5 9).minTime = some 5 ∧
    (handleZoom ⟨some 1800, none, none, none⟩ 5 9).maxTime = some 9 ∧
    (updateChart (some chart0) [dsA]
        (handleZoom ⟨some 1800, none, none, none⟩ 5 9).minTime
        (handleZoom ⟨some 1800, none, none, none⟩ 5 9).maxTime none true).map
        (fun st => (st.xmin, st.xmax)) = some (some 5, some 9) :=
  c7_zoom_fanout ⟨some 1800, none, none, none⟩ 5 9 chart0 [dsA] none true (-10) 3601 (by decide)

/-- C8: a pointer-move inside the plot area emits the data x-value at the
pointer's pixel position through the hover callback, and one outside the
plot area emits `null`; on the next render `updateChart` copies the shared
hovered timestamp into the vertical-line plugin, whose draw hook strokes a
line exactly when the value is non-null and its pixel lies inside the
chart area horizontally, and strokes nothing when the value is null. -/
theorem c8_hover_sync (area : ChartArea) (g pf : Int → Int) (pos : Pos)
    (v t : Int) (c : ChartState) (dss : List Dataset) (w1 w2 : Option Int)
    (leg : Bool) :
    (insideArea area pos = true → onHoverEmit area g pos = some (g pos.x)) ∧
    (insideArea area pos = false → onHoverEmit area g pos = none) ∧
    (updateChart (some c) dss w1 w2 (some t) leg).map (fun st => st.verticalLineX) =
      some (some t) ∧
    (updateChart (some c) dss w1 w2 none leg).map (fun st => st.verticalLineX) =
      some none ∧
    verticalLineDraw none pf area = none ∧
    (area.left ≤ pf v → pf v ≤ area.right →
      verticalLineDraw (some v) pf area = some (pf v)) := by
  refine ⟨fun h => ?_, fun h => ?_, ?_, ?_, rfl, fun h1 h2 => ?_⟩
  · rw [onHoverEmit, if_pos h]
  · rw [onHoverEmit, if_neg (by simp [h])]
  · rcases hs : scanPoints dss with _ | ⟨mn, mx⟩ <;>
      [simp only [updateChart, hs, Option.map_some'];
       rcases w1 with _ | a <;> rcases w2 with _ | b <;>
         simp only [updateChart, hs, Option.map_some']]
  · rcases hs : scanPoints dss with _ | ⟨mn, mx⟩ <;>
      [simp only [updateChart, hs, Option.map_some'];
       rcases w1 with _ | a <;> rcases w2 with _ | b <;>
         simp only [updateChart, hs, Option.map_some']]
  · rw [verticalLineDraw]
    rw [if_neg]
    simp only [not_or, not_lt]
    exact ⟨h1, h2⟩

/-- C8 instantiated: a pointer at (10, 10) inside the area [0,100]×[0,50]
emits the scale value at pixel 10; a hovered value whose pixel is 30 lies
inside and is drawn there. -/
theorem c8_hover_sync_witness :
    onHoverEmit ⟨0, 100, 0, 50⟩ (fun x => x + 7) ⟨10, 10⟩ = some 17 ∧
    verticalLineDraw (some 3) (fun x => x * 10) ⟨0, 100, 0, 50⟩ = some 30 :=
  ⟨(c8_hover_sync ⟨0, 100, 0, 50⟩ (fun x => x + 7) (fun x => x * 10) ⟨10, 10⟩ 3 0
      chart0 [] none none true).1 (by decide),
   (c8_hover_sync ⟨0, 100, 0, 50⟩ (fun x => x + 7) (fun x => x * 10) ⟨10, 10⟩ 3 0
      chart0 [] none none true).2.2.2.2.2 (by decide) (by decide)⟩

/-- C9: over a `LatencyChart`'s lifetime at most one chart.js instance is
created (in `onMount`, and only when the canvas context is available),
`onDestroy` destroys exactly as many instances as were created on every
path — including when no context was available and no instance exists —
and a render against a never-created instance creates nothing and returns
immediately. -/
theorem c9_lifecycle (ctx : Bool) (dss : List Dataset) (w1 w2 hov : Option Int)
    (leg : Bool) :
    (mountChart ctx).created ≤ 1 ∧
    (destroyChart (mountChart ctx)).destroyed = (destroyChart (mountChart ctx)).created ∧
    (destroyChart (mountChart ctx)).instanceAlive = false ∧
    updateChart none dss w1 w2 hov leg = none := by
  cases ctx <;> exact ⟨by decide, by decide, by decide, rfl⟩

/-! ### Helper lemmas: the hidden-status map preserves visibility by label -/

/-- Overwriting an existing key makes lookup on that key return the new
value. -/
theorem lookup_map_replace (m : List (String × Bool)) (k : String) (v : Bool)
    (h : m.any (fun p => p.1 == k) = true) :
    (m.map (fun p => if p.1 == k then (k, v) else p)).lookup k = some v := by
  induction m with
  | nil => simp at h
  | cons p ps ih =>
      rcases p with ⟨pk, pv⟩
      rw [List.map_cons]
      by_cases hp : pk = k
      · rw [if_pos (beq_iff_eq.mpr hp)]
        simp [List.lookup]
      · rw [if_neg (by simp [hp])]
        have h' : ps.any (fun p => p.1 == k) = true := by
          simp only [List.any_cons] at h
          rcases Bool.or_eq_true_iff.mp h with hk | h2
          · exact absurd (beq_iff_eq.mp hk) hp
          · exact h2
        simp only [List.lookup, beq_eq_false_iff_ne.mpr (Ne.symm hp)]
        exact ih h'

/-- Overwriting the value at key `k` does not change lookups on other
keys. -/
theorem lookup_map_replace_ne (m : List (String × Bool)) (k k' : String) (v : Bool)
    (hne : k' ≠ k) :
    (m.map (fun p => if p.1 == k then (k, v) else p)).lookup k' = m.lookup k' := by
  induction m with
  | nil => rfl
  | cons p ps ih =>
      rcases p with ⟨pk, pv⟩
      rw [List.map_cons]
      by_cases hp : pk = k
      · rw [if_pos (beq_iff_eq.mpr hp)]
        simp only [List.lookup, beq_eq_false_iff_ne.mpr hne,
          beq_eq_false_iff_ne.mpr (fun he => hne (he.trans hp))]
        exact ih
      · rw [if_neg (by simp [hp])]
        by_cases hkk : k' = pk
        · simp only [List.lookup, beq_iff_eq.mpr hkk]
        · simp only [List.lookup, beq_eq_false_iff_ne.mpr hkk]
          exact ih

/-- Appending a fresh key at the end makes lookup on it return its
value. -/
theorem lookup_append_single_self (m : List (String × Bool)) (k : String) (v : Bool)
    (h : m.any (fun p => p.1 == k) = false) :
    (m ++ [(k, v)]).lookup k = some v := by
  induction m with
  | nil => simp [List.lookup]
  | cons p ps ih =>
      rcases p with ⟨pk, pv⟩
      simp only [List.any_cons, Bool.or_eq_false_iff] at h
      rw [List.cons_append]
      have hne : (k == pk) = false :=
        beq_eq_false_iff_ne.mpr (Ne.symm (beq_eq_false_iff_ne.mp h.1))
      simp only [List.lookup, hne]
      exact ih h.2

/-- Appending an entry at key `k` does not change lookups on other keys. -/
theorem lookup_append_single_ne (m : List (String × Bool)) (k k' : String) (v : Bool)
    (hne : k' ≠ k) :
    (m ++ [(k, v)]).lookup k' = m.lookup k' := by
  induction m with
  | nil => simp [List.lookup, beq_eq_false_iff_ne.mpr hne]
  | cons p ps ih =>
      rcases p with ⟨pk, pv⟩
      rw [List.cons_append]
      by_cases hp : k' = pk
      · simp only [List.lookup, beq_iff_eq.mpr hp]
      · simp only [List.lookup, beq_eq_false_iff_ne.mpr hp]
        exact ih

/-- `Map.set` then `get` on the same key returns the set value. -/
theorem mapSet_lookup_self (m : List (String × Bool)) (k : String) (v : Bool) :
    (mapSet m k v).lookup k = some v := by
  unfold mapSet
  by_cases h : m.any (fun p => p.1 == k) = true
  · rw [if_pos h]; exact lookup_map_replace m k v h
  · rw [if_neg h]
    exact lookup_append_single_self m k v (Bool.eq_false_iff.mpr h)

/-- `Map.set` leaves other keys untouched. -/
theorem mapSet_lookup_ne (m : List (String × Bool)) (k k' : String) (v : Bool)
    (hne : k' ≠ k) :
    (mapSet m k v).lookup k' = m.lookup k' := by
  unfold mapSet
  by_cases h : m.any (fun p => p.1 == k) = true
  · rw [if_pos h]; exact lookup_map_replace_ne m k k' v hne
  · rw [if_neg h]; exact lookup_append_single_ne m k k' v hne

/-- Looking a non-empty label up in the fold that builds the
hidden-status map finds the hidden flag of the last dataset with that
label, falling back to the initial map. (Datasets whose label fails the
truthiness guard never touch the map; a matching entry for a non-empty
key never has an empty label.) -/
theorem hiddenFold_lookup (dss : List RenderedDataset) (m : List (String × Bool))
    (L : String) (hL : L ≠ "") :
    ((dss.foldl (fun m ds =>
        if ds.label = "" then m else mapSet m ds.label (!isDatasetVisible ds)) m).lookup L) =
      (match dss.reverse.find? (fun d => d.label == L) with
       | some o => some (!isDatasetVisible o)
       | none => m.lookup L) := by
  induction dss generalizing m with
  | nil => rfl
  | cons ds dss ih =>
      rw [List.foldl_cons, ih, List.reverse_cons, List.find?_append]
      cases hf : dss.reverse.find? (fun d => d.label == L) with
      | some o => rfl
      | none =>
          by_cases hl : ds.label = L
          · simp only [Option.none_or, List.find?, beq_iff_eq.mpr hl]
            rw [if_neg (by rw [hl]; exact hL), ← hl, mapSet_lookup_self]
          · simp only [Option.none_or, List.find?, beq_eq_false_iff_ne.mpr hl]
            by_cases he : ds.label = ""
            · rw [if_pos he]
            · rw [if_neg he]
              exact mapSet_lookup_ne m ds.label L (!isDatasetVisible ds) (Ne.symm hl)

/-- The empty label never enters the hidden-status fold: the truthiness
guard skips it, and every `mapSet` is on a non-empty key. -/
theorem hiddenFold_lookup_empty (dss : List RenderedDataset)
    (m : List (String × Bool)) :
    ((dss.foldl (fun m ds =>
        if ds.label = "" then m else mapSet m ds.label (!isDatasetVisible ds)) m).lookup "") =
      m.lookup "" := by
  induction dss generalizing m with
  | nil => rfl
  | cons ds dss ih =>
      rw [List.foldl_cons, ih]
      by_cases he : ds.label = ""
      · rw [if_pos he]
      · rw [if_neg he]
        exact mapSet_lookup_ne m ds.label "" (!isDatasetVisible ds) (Ne.symm he)

/-- The hidden-status map never holds the empty label. -/
theorem lookup_hiddenStatusOf_empty (dss : List RenderedDataset) :
    (hiddenStatusOf dss).lookup "" = none := by
  rw [hiddenStatusOf, hiddenFold_lookup_empty]
  rfl

/-- In a list whose labels are distinct, `find?` by the label of a member
returns that member. -/
theorem find?_label_of_nodup (dss : List RenderedDataset)
    (hnodup : (dss.map (fun d => d.label)).Nodup) (o : RenderedDataset)
    (ho : o ∈ dss) : dss.find? (fun d => d.label == o.label) = some o := by
  induction dss with
  | nil => cases ho
  | cons d ds ih =>
      rw [List.map_cons, List.nodup_cons] at hnodup
      rcases List.mem_cons.mp ho with rfl | hmem
      · simp [List.find?]
      · have hd : d.label ≠ o.label := by
          intro he
          exact hnodup.1 (he ▸ List.mem_map_of_mem (fun d => d.label) hmem)
        simp only [List.find?, beq_eq_false_iff_ne.mpr hd]
        exact ih hnodup.2 hmem

/-- With distinct labels, the hidden-status map records, for each current
dataset whose label passes the truthiness guard, the negation of its
visibility under its label. -/
theorem lookup_hiddenStatusOf_of_mem (dss : List RenderedDataset)
    (hnodup : (dss.map (fun d => d.label)).Nodup) (o : RenderedDataset)
    (ho : o ∈ dss) (hlab : o.label ≠ "") :
    (hiddenStatusOf dss).lookup o.label = some (!isDatasetVisible o) := by
  rw [hiddenStatusOf, hiddenFold_lookup _ _ _ hlab]
  have hrev : dss.reverse.find? (fun d => d.label == o.label) = some o := by
    apply find?_label_of_nodup
    · rw [List.map_reverse]
      exact List.nodup_reverse.mpr hnodup
    · exact List.mem_reverse.mpr ho
  rw [hrev]

/-- A label carried by no current dataset is absent from the
hidden-status map. -/
theorem lookup_hiddenStatusOf_of_not_mem (dss : List RenderedDataset) (L : String)
    (h : ∀ o ∈ dss, o.label ≠ L) :
    (hiddenStatusOf dss).lookup L = none := by
  by_cases hL : L = ""
  · rw [hL]
    exact lookup_hiddenStatusOf_empty dss
  · rw [hiddenStatusOf, hiddenFold_lookup _ _ _ hL]
    have hrev : dss.reverse.find? (fun d => d.label == L) = none := by
      rw [List.find?_eq_none]
      intro d hd
      simp [h d (List.mem_reverse.mp hd)]
    rw [hrev]
    rfl

/-- `updateChart` rebuilds the chart's datasets as the incoming datasets
mapped through `renderDataset` with the hidden-status of the previous
datasets. -/
theorem updateChart_datasets (c : ChartState) (dss : List Dataset)
    (wmn wmx hov : Option Int) (leg : Bool) :
    (updateChart (some c) dss wmn wmx hov leg).map (fun st => st.datasets) =
      some (dss.map (renderDataset (hiddenStatusOf c.datasets))) := by
  rcases hs : scanPoints dss with _ | ⟨mn, mx⟩
  · simp only [updateChart, hs, Option.map_some']
  · rcases wmn with _ | a <;> rcases wmx with _ | b <;>
      simp only [updateChart, hs, Option.map_some']

/-- C6: counterexample — the source's `if (ds.label)` truthiness guard
skips the empty-string label when recording hidden state, so a hidden
series labelled `""` (unique in its chart, and present again in the new
data) reappears visible after the refresh, although the claim requires
it to stay hidden. -/
theorem c6_counterexample :
    hiddenEmptyLabel ∈ chartE.datasets ∧
    isDatasetVisible hiddenEmptyLabel = false ∧
    (chartE.datasets.map (fun d => d.label)).Nodup ∧
    dsEmptyLabel.label = hiddenEmptyLabel.label ∧
    (updateChart (some chartE) [dsEmptyLabel] none none none true).map
        (fun st => st.datasets.map isDatasetVisible) = some [true] := by
  refine ⟨by decide, by decide, by decide, by decide, ?_⟩
  decide

/-- C6 (amended): on a data refresh (assuming labels unique within the
chart), the rebuilt dataset for each incoming dataset keeps its label; it
renders hidden whenever its label is non-empty and a dataset with the
same label was hidden in the live chart before the refresh; it renders
visible whenever its label was not previously present in the chart, and
also whenever its label is the empty string, which the `if (ds.label)`
truthiness guard excludes from hidden-state preservation. -/
theorem c6_visibility_persistence (c : ChartState) (dss : List Dataset)
    (wmn wmx hov : Option Int) (leg : Bool) (ds : Dataset) (hds : ds ∈ dss)
    (hnodup : (c.datasets.map (fun d => d.label)).Nodup) :
    ∃ c', updateChart (some c) dss wmn wmx hov leg = some c' ∧
      renderDataset (hiddenStatusOf c.datasets) ds ∈ c'.datasets ∧
      (renderDataset (hiddenStatusOf c.datasets) ds).label = ds.label ∧
      (ds.label ≠ "" →
        ∀ ods ∈ c.datasets, ods.label = ds.label → isDatasetVisible ods = false →
        isDatasetVisible (renderDataset (hiddenStatusOf c.datasets) ds) = false) ∧
      ((∀ ods ∈ c.datasets, ods.label ≠ ds.label) →
        isDatasetVisible (renderDataset (hiddenStatusOf c.datasets) ds) = true) ∧
      (ds.label = "" →
        isDatasetVisible (renderDataset (hiddenStatusOf c.datasets) ds) = true) := by
  have hd := updateChart_datasets c dss wmn wmx hov leg
  rcases hup : updateChart (some c) dss wmn wmx hov leg with _ | c'
  · rw [hup] at hd; cases hd
  · rw [hup, Option.map_some'] at hd
    have hdats : c'.datasets = dss.map (renderDataset (hiddenStatusOf c.datasets)) :=
      Option.some.inj hd
    refine ⟨c', rfl, ?_, rfl, ?_, ?_, ?_⟩
    · rw [hdats]
      exact List.mem_map_of_mem _ hds
    · intro hne ods hos hlbl hvis
      have hlook : (hiddenStatusOf c.datasets).lookup ds.label =
          some (!isDatasetVisible ods) := by
        rw [← hlbl]
        exact lookup_hiddenStatusOf_of_mem c.datasets hnodup ods hos
          (by rw [hlbl]; exact hne)
      rw [hvis] at hlook
      simp [isDatasetVisible, renderDataset, hlook]
    · intro hnone
      have hlook : (hiddenStatusOf c.datasets).lookup ds.label = none :=
        lookup_hiddenStatusOf_of_not_mem c.datasets ds.label hnone
      simp [isDatasetVisible, renderDataset, hlook]
    · intro he
      have hlook : (hiddenStatusOf c.datasets).lookup ds.label = none := by
        rw [he]
        exact lookup_hiddenStatusOf_empty c.datasets
      simp [isDatasetVisible, renderDataset, hlook]

/-- C6 amended, instantiated: refreshing a chart holding a hidden "P99"
and a visible "P50" with a new "P99" dataset keeps it hidden. -/
theorem c6_visibility_persistence_witness :
    ∃ c', updateChart (some chartH) [dsP99] none none none true = some c' ∧
      renderDataset (hiddenStatusOf chartH.datasets) dsP99 ∈ c'.datasets ∧
      (renderDataset (hiddenStatusOf chartH.datasets) dsP99).label = dsP99.label ∧
      (dsP99.label ≠ "" →
        ∀ ods ∈ chartH.datasets, ods.label = dsP99.label → isDatasetVisible ods = false →
        isDatasetVisible (renderDataset (hiddenStatusOf chartH.datasets) dsP99) = false) ∧
      ((∀ ods ∈ chartH.datasets, ods.label ≠ dsP99.label) →
        isDatasetVisible (renderDataset (hiddenStatusOf chartH.datasets) dsP99) = true) ∧
      (dsP99.label = "" →
        isDatasetVisible (renderDataset (hiddenStatusOf chartH.datasets) dsP99) = true) :=
  c6_visibility_persistence chartH [dsP99] none none none true dsP99 (by decide) (by decide)
